import Mathlib

/-!
Shallow embedding of `scripts/collision_detection_example.py`.

The script is pure orchestration over the pybullet API, so the embedding
gives it a trace semantics: every external simulator call the loop makes is
recorded as an `Effect`, and the scene-loading phase is modelled as explicit
state passing over a per-client `SimSession` whose body identifiers are
assigned sequentially from 0, exactly as a fresh pybullet client does.
Slider readings and distance queries are oracles (function parameters),
since their values come from the GUI user and the physics engine.
-/

namespace CollisionExample

/-- One `pyb.loadURDF` call as issued by `load_environment`: the asset file
name, the base position, the `useFixedBase` flag and the physics client it
was issued to.  Positions in this script are exact decimal values, so `ℚ`
represents them faithfully. -/
structure LoadCall where
  fileName : String
  basePosition : List ℚ
  useFixedBase : Bool
  physicsClientId : Nat
deriving DecidableEq, Repr

/-- The mutable state of one pybullet client during scene loading: the next
body id the client will hand out (a fresh client starts at 0 and counts up),
whether `setAdditionalSearchPath` was called (the path string itself comes
from the external `pybullet_data` package and is not modelled), and the list
of `loadURDF` calls issued so far, in order. -/
structure SimSession where
  nextBodyId : Nat
  searchPathSet : Bool
  calls : List LoadCall
deriving DecidableEq, Repr

/-- A freshly connected pybullet client: no bodies, no calls. -/
def freshSession : SimSession := ⟨0, false, []⟩

/-- Model of `pyb.setAdditionalSearchPath(pybullet_data.getDataPath(), ...)`. -/
def setAdditionalSearchPath (s : SimSession) : SimSession :=
  { s with searchPathSet := true }

/-- Model of `pyb.loadURDF`: returns the newly assigned body id and the
updated session, recording the call. -/
def loadURDF (s : SimSession) (fileName : String) (basePosition : List ℚ)
    (useFixedBase : Bool) (physicsClientId : Nat) : Nat × SimSession :=
  (s.nextBodyId,
   ⟨s.nextBodyId + 1, s.searchPathSet,
    s.calls ++ [⟨fileName, basePosition, useFixedBase, physicsClientId⟩]⟩)

/-- Embedding of `load_environment(client_id)`: loads the ground plane, the
KUKA iiwa arm and three cubes into the given client's session and returns
the body-name-to-id association list, in the order the source dict literal
builds it. -/
def load_environment (client_id : Nat) (s : SimSession) :
    List (String × Nat) × SimSession :=
  let s := setAdditionalSearchPath s
  let (ground_id, s) := loadURDF s "plane.urdf" [0, 0, 0] true client_id
  let (kuka_id, s) := loadURDF s "kuka_iiwa/model.urdf" [0, 0, 0] true client_id
  let (cube1_id, s) := loadURDF s "cube.urdf" [1, 1, mkRat 1 2] true client_id
  let (cube2_id, s) := loadURDF s "cube.urdf" [-1, -1, mkRat 1 2] true client_id
  let (cube3_id, s) := loadURDF s "cube.urdf" [1, -1, mkRat 1 2] true client_id
  let bodies := [("robot", kuka_id), ("ground", ground_id),
                 ("cube1", cube1_id), ("cube2", cube2_id), ("cube3", cube3_id)]
  (bodies, s)

/-- The dict returned by `create_user_debug_params`, with one field per key:
each field holds the debug-parameter id returned by
`pyb.addUserDebugParameter` for that slider. -/
structure UserParams where
  collision_margin : Nat
  lbr_iiwa_joint1 : Nat
  lbr_iiwa_joint2 : Nat
  lbr_iiwa_joint3 : Nat
  lbr_iiwa_joint4 : Nat
  lbr_iiwa_joint5 : Nat
  lbr_iiwa_joint6 : Nat
  lbr_iiwa_joint7 : Nat
deriving DecidableEq, Repr

/-- One `pyb.addUserDebugParameter` call: the slider name, its start value
and the client.  The slider ranges (`0..0.2` for the margin, `±2π` for the
joints) are irrational for the joints and referenced by no claim, so they
are not recorded. -/
structure ParamCall where
  paramName : String
  startValue : ℚ
  physicsClientId : Nat
deriving DecidableEq, Repr

/-- Embedding of `create_user_debug_params(gui_id)`: the GUI client assigns
debug-parameter ids sequentially from 0 in the order the dict literal
evaluates its values, so the margin slider gets id 0 and the seven joint
sliders get ids 1..7. -/
def create_user_debug_params (gui_id : Nat) : UserParams × List ParamCall :=
  (⟨0, 1, 2, 3, 4, 5, 6, 7⟩,
   [⟨"collision_margin", mkRat 1 100, gui_id⟩,
    ⟨"lbr_iiwa_joint1", 0, gui_id⟩,
    ⟨"lbr_iiwa_joint2", 0, gui_id⟩,
    ⟨"lbr_iiwa_joint3", 0, gui_id⟩,
    ⟨"lbr_iiwa_joint4", 0, gui_id⟩,
    ⟨"lbr_iiwa_joint5", 0, gui_id⟩,
    ⟨"lbr_iiwa_joint6", 0, gui_id⟩,
    ⟨"lbr_iiwa_joint7", 0, gui_id⟩])

/-- A reference to a body (and optionally one of its links) used for
collision queries.  Modelled from the spec: `NamedCollisionObject` lives in
`pyb_utils/collision.py`, which is not under src; the spec's glossary calls
it "a (body, optional link) reference used to identify what to measure
distance between", and the script builds it with the link omitted for the
static bodies. -/
structure NamedCollisionObject where
  body_name : String
  link_name : Option String
deriving DecidableEq, Repr

/-- The collision-detection helper as the script configures it: the headless
client it queries, the body-name map of that client, and the list of named
pairs to monitor.  Modelled from the spec: `CollisionDetector` lives in
`pyb_utils/collision.py`, which is not under src; the spec says it is
constructed from the headless session, its bodies, and "a list of named
collision-object pairs to monitor". -/
structure CollisionDetector where
  col_id : Nat
  bodies : List (String × Nat)
  named_pairs : List (NamedCollisionObject × NamedCollisionObject)
deriving DecidableEq, Repr

/-- Modelled from the spec: `CollisionDetector.in_collision` lives in
`pyb_utils/collision.py`, which is not under src.  The spec says a
configuration is colliding exactly when "the computed minimum distance is
less than the margin". -/
def in_collision (dists : List ℚ) (margin : ℚ) : Bool :=
  match dists.min? with
  | some m => decide (m < margin)
  | none => false

/-- Every external call the main loop makes, as recorded in the iteration
trace.  `clientId` fields name the pybullet client a call goes to; the
`CollisionDetector` queries carry the headless client they were constructed
with.  `addUserDebugText` is called without `physicsClientId` in the source,
so it goes to pybullet's default client 0 (the first connection). -/
inductive Effect where
  | readUserDebugParameter (paramId : Nat) (clientId : Nat)
  | computeDistancesQuery (clientId : Nat) (q : List ℚ)
  | inCollisionQuery (clientId : Nat) (q : List ℚ) (margin : ℚ)
  | resetJointState (bodyId : Nat) (jointIndex : Nat) (value : ℚ) (clientId : Nat)
  | addUserDebugText (text : String) (textPosition : List ℚ)
      (textColorRGB : List ℚ) (textSize : ℚ) (lifeTime : ℚ) (clientId : Nat)
  | printDistances (d : List ℚ)
  | stepSimulation (clientId : Nat)
deriving DecidableEq, Repr

/-- The effects of the loop `for joint_idx in range(...)` inside
`update_robot_state`: one `resetJointState` per index, reading
`state[joint_idx]`; a numpy index out of bounds raises, modelled as `none`. -/
def resetJointEffects (robot_id : Nat) (state : List ℚ) (clientId : Nat) :
    List Nat → Option (List Effect)
  | [] => some []
  | j :: rest =>
    match state[j]? with
    | none => none
    | some v =>
      match resetJointEffects robot_id state clientId rest with
      | none => none
      | some es => some (Effect.resetJointState robot_id j v clientId :: es)

/-- Embedding of `update_robot_state(robot_id, state, physicsClientId)`.
`getNumJoints` stands for `pyb.getNumJoints(robot_id, ...)` on the given
client; the result is `none` when some `state[joint_idx]` is out of range
(the uncaught `IndexError` of the source). -/
def update_robot_state (getNumJoints : Nat → Nat) (robot_id : Nat)
    (state : List ℚ) (physicsClientId : Nat) : Option (List Effect) :=
  resetJointEffects robot_id state physicsClientId
    (List.range (getNumJoints robot_id))

/-- Modelled from the spec: the KUKA iiwa URDF asset is external to the
repository; the spec calls it "a 7-joint robot arm", so `pyb.getNumJoints`
on it returns 7. -/
def kukaNumJoints : Nat := 7

/- ----------------------------------------------------------------------
Constants fixed by `main()` before the loop starts.
`pyb.connect` hands out client ids sequentially from 0, so the GUI client
(first connection) is 0 and the headless DIRECT client is 1.
---------------------------------------------------------------------- -/

/-- The GUI client id: `gui_id = pyb.connect(pyb.GUI)`, the first connection. -/
def gui_id : Nat := 0

/-- The headless client id: `col_id = pyb.connect(pyb.DIRECT)`, the second
connection, used only for collision queries. -/
def col_id : Nat := 1

/-- `user_params = create_user_debug_params(gui_id)`. -/
def user_params : UserParams := (create_user_debug_params gui_id).1

/-- `bodies = load_environment(gui_id)` on the fresh GUI client. -/
def bodies : List (String × Nat) := (load_environment gui_id freshSession).1

/-- `collision_bodies = load_environment(col_id)` on the fresh DIRECT client. -/
def collision_bodies : List (String × Nat) :=
  (load_environment col_id freshSession).1

/-- `ground = NamedCollisionObject("ground")`. -/
def ground : NamedCollisionObject := ⟨"ground", none⟩

/-- `cube1 = NamedCollisionObject("cube1")`. -/
def cube1 : NamedCollisionObject := ⟨"cube1", none⟩

/-- `cube2 = NamedCollisionObject("cube2")`. -/
def cube2 : NamedCollisionObject := ⟨"cube2", none⟩

/-- `cube3 = NamedCollisionObject("cube3")`. -/
def cube3 : NamedCollisionObject := ⟨"cube3", none⟩

/-- `link7 = NamedCollisionObject("robot", "lbr_iiwa_link_7")`, the last link. -/
def link7 : NamedCollisionObject := ⟨"robot", some "lbr_iiwa_link_7"⟩

/-- The `CollisionDetector` as constructed in `main`. -/
def col_detector : CollisionDetector :=
  ⟨col_id, collision_bodies,
   [(link7, ground), (link7, cube1), (link7, cube2), (link7, cube3)]⟩

/-- `robot_id = bodies["robot"]` (the lookup succeeds; see
`bodies_lookup_robot`). -/
def robot_id : Nat := ((bodies.lookup "robot").getD 0)

/-- The joint-angle vector `q` built each iteration from the seven joint
sliders; `read` is the oracle for `pyb.readUserDebugParameter`. -/
def qOf (read : Nat → ℚ) (p : UserParams) : List ℚ :=
  [read p.lbr_iiwa_joint1, read p.lbr_iiwa_joint2, read p.lbr_iiwa_joint3,
   read p.lbr_iiwa_joint4, read p.lbr_iiwa_joint5, read p.lbr_iiwa_joint6,
   read p.lbr_iiwa_joint7]

/-- The warning text rendered in the collision branch, with the literal
arguments of the source call (red color `[1,0,0]`, default client 0). -/
def warnEffect : Effect :=
  Effect.addUserDebugText "Avoiding collision" [0, 0, mkRat 3 2] [1, 0, 0]
    2 (mkRat 1 5) 0

/-- One iteration of the `while True` loop in `main`, as the trace of
external calls it makes, in source order: the seven joint-slider reads
building `q`, the `compute_distances` query, the margin-slider read (an
argument of the `in_collision` call, hence evaluated after
`compute_distances`), the `in_collision` query, the branch (either the
`update_robot_state` effects or the warning text), the distance printout,
and one `stepSimulation` on the GUI client.  `getNumJoints` and the two
oracles parameterise the external simulator; the result is `none` when
`update_robot_state` would raise. -/
def loop_body (getNumJoints : Nat → Nat) (read : Nat → ℚ)
    (distsFn : List ℚ → List ℚ) : Option (List Effect) :=
  let p := user_params
  let q := qOf read p
  let d := distsFn q
  let margin := read p.collision_margin
  let in_col := in_collision d margin
  let branch :=
    if !in_col then
      update_robot_state getNumJoints robot_id q gui_id
    else
      some [warnEffect]
  branch.map fun branch_effects =>
    [Effect.readUserDebugParameter p.lbr_iiwa_joint1 gui_id,
     Effect.readUserDebugParameter p.lbr_iiwa_joint2 gui_id,
     Effect.readUserDebugParameter p.lbr_iiwa_joint3 gui_id,
     Effect.readUserDebugParameter p.lbr_iiwa_joint4 gui_id,
     Effect.readUserDebugParameter p.lbr_iiwa_joint5 gui_id,
     Effect.readUserDebugParameter p.lbr_iiwa_joint6 gui_id,
     Effect.readUserDebugParameter p.lbr_iiwa_joint7 gui_id,
     Effect.computeDistancesQuery col_id q,
     Effect.readUserDebugParameter p.collision_margin gui_id,
     Effect.inCollisionQuery col_id q margin]
    ++ branch_effects
    ++ [Effect.printDistances d, Effect.stepSimulation gui_id]

/-- The seven joint-slider read effects at the head of every iteration. -/
def jointReadEffects : List Effect :=
  [Effect.readUserDebugParameter user_params.lbr_iiwa_joint1 gui_id,
   Effect.readUserDebugParameter user_params.lbr_iiwa_joint2 gui_id,
   Effect.readUserDebugParameter user_params.lbr_iiwa_joint3 gui_id,
   Effect.readUserDebugParameter user_params.lbr_iiwa_joint4 gui_id,
   Effect.readUserDebugParameter user_params.lbr_iiwa_joint5 gui_id,
   Effect.readUserDebugParameter user_params.lbr_iiwa_joint6 gui_id,
   Effect.readUserDebugParameter user_params.lbr_iiwa_joint7 gui_id]

/-- The effects `update_robot_state` issues in `main`'s clear branch: one
`resetJointState` on the GUI client for each of the seven joints, with the
corresponding entry of `q`. -/
def applyEffects (read : Nat → ℚ) : List Effect :=
  [Effect.resetJointState robot_id 0 (read user_params.lbr_iiwa_joint1) gui_id,
   Effect.resetJointState robot_id 1 (read user_params.lbr_iiwa_joint2) gui_id,
   Effect.resetJointState robot_id 2 (read user_params.lbr_iiwa_joint3) gui_id,
   Effect.resetJointState robot_id 3 (read user_params.lbr_iiwa_joint4) gui_id,
   Effect.resetJointState robot_id 4 (read user_params.lbr_iiwa_joint5) gui_id,
   Effect.resetJointState robot_id 5 (read user_params.lbr_iiwa_joint6) gui_id,
   Effect.resetJointState robot_id 6 (read user_params.lbr_iiwa_joint7) gui_id]

/-- Everything one iteration does before the branch: the seven joint reads,
the distance query, the margin read, the collision query. -/
def preBranchEffects (read : Nat → ℚ) : List Effect :=
  jointReadEffects
  ++ [Effect.computeDistancesQuery col_id (qOf read user_params),
      Effect.readUserDebugParameter user_params.collision_margin gui_id,
      Effect.inCollisionQuery col_id (qOf read user_params)
        (read user_params.collision_margin)]

/-- Everything one iteration does after the branch: print the distances and
advance the GUI simulation by one step. -/
def postBranchEffects (read : Nat → ℚ) (distsFn : List ℚ → List ℚ) : List Effect :=
  [Effect.printDistances (distsFn (qOf read user_params)),
   Effect.stepSimulation gui_id]

/-- The `while True` loop of `main` run for `n` iterations, with the oracles
indexed by iteration number: the concatenated trace of the first `n`
iterations, or `none` if some iteration faulted.  The loop has no guard, so
`run` is defined (totally) for every `n`. -/
def run (getNumJoints : Nat → Nat) (read : Nat → Nat → ℚ)
    (distsFn : Nat → List ℚ → List ℚ) : Nat → Option (List Effect)
  | 0 => some []
  | n + 1 =>
    match run getNumJoints read distsFn n,
          loop_body getNumJoints (read n) (distsFn n) with
    | some t, some b => some (t ++ b)
    | _, _ => none

/- ----------------------------------------------------------------------
Fallible versions: every external call may raise, and the script has no
try/except, so the embedding chains the calls with `Except` bind and never
catches.
---------------------------------------------------------------------- -/

/-- `load_environment` with a fallible `pyb.loadURDF` (e.g. a missing
asset): the five loads are sequenced exactly as in the source, with no
handler around any of them. -/
def load_environmentE (loadFn : String → List ℚ → Bool → Nat → Except String Nat)
    (client_id : Nat) : Except String (List (String × Nat)) := do
  let ground_id ← loadFn "plane.urdf" [0, 0, 0] true client_id
  let kuka_id ← loadFn "kuka_iiwa/model.urdf" [0, 0, 0] true client_id
  let cube1_id ← loadFn "cube.urdf" [1, 1, mkRat 1 2] true client_id
  let cube2_id ← loadFn "cube.urdf" [-1, -1, mkRat 1 2] true client_id
  let cube3_id ← loadFn "cube.urdf" [1, -1, mkRat 1 2] true client_id
  pure [("robot", kuka_id), ("ground", ground_id), ("cube1", cube1_id),
        ("cube2", cube2_id), ("cube3", cube3_id)]

/-- One loop iteration with fallible slider reads and distance queries,
sequenced in source order with `Except` bind and no handler anywhere; an
out-of-range joint index inside `update_robot_state` surfaces as the
`IndexError` the source would raise. -/
def loop_bodyE (getNumJoints : Nat → Nat) (read : Nat → Except String ℚ)
    (distsFn : List ℚ → Except String (List ℚ)) : Except String (List Effect) := do
  let p := user_params
  let q1 ← read p.lbr_iiwa_joint1
  let q2 ← read p.lbr_iiwa_joint2
  let q3 ← read p.lbr_iiwa_joint3
  let q4 ← read p.lbr_iiwa_joint4
  let q5 ← read p.lbr_iiwa_joint5
  let q6 ← read p.lbr_iiwa_joint6
  let q7 ← read p.lbr_iiwa_joint7
  let q := [q1, q2, q3, q4, q5, q6, q7]
  let d ← distsFn q
  let margin ← read p.collision_margin
  let in_col := in_collision d margin
  let branch_effects ←
    if !in_col then
      match update_robot_state getNumJoints robot_id q gui_id with
      | some es => Except.ok es
      | none => Except.error "IndexError"
    else
      Except.ok [warnEffect]
  Except.ok
    ([Effect.readUserDebugParameter p.lbr_iiwa_joint1 gui_id,
      Effect.readUserDebugParameter p.lbr_iiwa_joint2 gui_id,
      Effect.readUserDebugParameter p.lbr_iiwa_joint3 gui_id,
      Effect.readUserDebugParameter p.lbr_iiwa_joint4 gui_id,
      Effect.readUserDebugParameter p.lbr_iiwa_joint5 gui_id,
      Effect.readUserDebugParameter p.lbr_iiwa_joint6 gui_id,
      Effect.readUserDebugParameter p.lbr_iiwa_joint7 gui_id,
      Effect.computeDistancesQuery col_id q,
      Effect.readUserDebugParameter p.collision_margin gui_id,
      Effect.inCollisionQuery col_id q margin]
     ++ branch_effects
     ++ [Effect.printDistances d, Effect.stepSimulation gui_id])

/- ----------------------------------------------------------------------
Analysis helpers over traces.
---------------------------------------------------------------------- -/

/-- Is this effect a slider read (`pyb.readUserDebugParameter`)? -/
def isSliderRead : Effect → Bool
  | Effect.readUserDebugParameter _ _ => true
  | _ => false

/-- Is this effect one of the two `CollisionDetector` queries against the
headless session? -/
def isDetectorQuery : Effect → Bool
  | Effect.computeDistancesQuery _ _ => true
  | Effect.inCollisionQuery _ _ _ => true
  | _ => false

/-- Is this effect a `stepSimulation` call? -/
def isStep : Effect → Bool
  | Effect.stepSimulation _ => true
  | _ => false

/-- The pybullet client an effect talks to (`none` for the stdout print). -/
def effectClient : Effect → Option Nat
  | Effect.readUserDebugParameter _ c => some c
  | Effect.computeDistancesQuery c _ => some c
  | Effect.inCollisionQuery c _ _ => some c
  | Effect.resetJointState _ _ _ c => some c
  | Effect.addUserDebugText _ _ _ _ _ c => some c
  | Effect.printDistances _ => none
  | Effect.stepSimulation c => some c

/-- The ordering property C3 asserts of an iteration trace, read literally:
every slider read precedes every headless-session query. -/
def readsBeforeQueries (t : List Effect) : Bool :=
  (List.range t.length).all fun i =>
    (List.range t.length).all fun j =>
      !(isSliderRead (t.getD i (Effect.printDistances []))
        && isDetectorQuery (t.getD j (Effect.printDistances []))) || decide (i < j)

/-- A concrete slider oracle for counterexample and witness evaluation. -/
def zeroRead : Nat → ℚ := fun _ => 0

/-- A concrete distance oracle: every monitored pair is at distance 1. -/
def farDists : List ℚ → List ℚ := fun _ => [1, 1, 1, 1]

/-- The concrete iteration trace under `zeroRead` and `farDists`. -/
def sampleTrace : List Effect :=
  (loop_body (fun _ => kukaNumJoints) zeroRead farDists).getD []

/-- A concrete slider oracle returning 1 everywhere (margin 1, joints 1). -/
def oneRead : Nat → ℚ := fun _ => 1

/-- A concrete distance oracle with one pair closer than margin 1. -/
def closeDists : List ℚ → List ℚ := fun _ => [0, 1, 1, 1]

/-- The concrete iteration trace under `oneRead` and `closeDists`, a
configuration reported as colliding. -/
def collideTrace : List Effect :=
  (loop_body (fun _ => kukaNumJoints) oneRead closeDists).getD []

/-- The scene a client ends up with after `load_environment`, stripped of
the client id: file name, base position and fixed-base flag of every load,
in order. -/
def sceneOf (client_id : Nat) : List (String × List ℚ × Bool) :=
  ((load_environment client_id freshSession).2.calls).map
    fun c => (c.fileName, c.basePosition, c.useFixedBase)

/- ----------------------------------------------------------------------
Helper lemmas.
---------------------------------------------------------------------- -/

/-- The `mkRat` constants of the embedding are exactly the decimal literals
of the source: `0.5` (cube height), `1.5` (warning text height), `0.2`
(warning lifetime) and `0.01` (margin slider start). -/
theorem mkRat_literal_values :
    (mkRat 1 2 : ℚ) = 0.5 ∧ (mkRat 3 2 : ℚ) = 1.5 ∧
    (mkRat 1 5 : ℚ) = 0.2 ∧ (mkRat 1 100 : ℚ) = 0.01 := by
  refine ⟨?_, ?_, ?_, ?_⟩ <;> norm_num [Rat.mkRat_eq_div]

/-- The `bodies["robot"]` lookup in `main` succeeds and yields the KUKA
body id, so the `getD` fallback in `robot_id` never fires. -/
theorem bodies_lookup_robot : bodies.lookup "robot" = some robot_id := by decide

/-- In `main`, `update_robot_state` on the 7-joint KUKA with the 7-element
`q` succeeds and issues exactly one `resetJointState` per joint. -/
theorem update_robot_state_main (read : Nat → ℚ) :
    update_robot_state (fun _ => kukaNumJoints) robot_id (qOf read user_params)
      gui_id = some (applyEffects read) := rfl

/-- Structural form of one loop iteration: the pre-branch calls, the branch
chosen by `in_collision`, then the printout and the step. -/
theorem loop_body_eq (read : Nat → ℚ) (distsFn : List ℚ → List ℚ) :
    loop_body (fun _ => kukaNumJoints) read distsFn =
      some (preBranchEffects read
        ++ (if in_collision (distsFn (qOf read user_params))
              (read user_params.collision_margin)
            then [warnEffect] else applyEffects read)
        ++ postBranchEffects read distsFn) := by
  cases h : in_collision (distsFn (qOf read user_params))
      (read user_params.collision_margin) <;>
    simp [loop_body, h, update_robot_state_main, preBranchEffects,
      jointReadEffects, postBranchEffects]

/-- Every iteration trace exists and is nonempty. -/
theorem loop_body_total (read : Nat → ℚ) (distsFn : List ℚ → List ℚ) :
    ∃ b, loop_body (fun _ => kukaNumJoints) read distsFn = some b ∧
      0 < b.length := by
  refine ⟨_, loop_body_eq read distsFn, ?_⟩
  cases in_collision (distsFn (qOf read user_params))
      (read user_params.collision_margin) <;>
    simp [preBranchEffects, jointReadEffects, postBranchEffects]

/-- `resetJointEffects` succeeds exactly when every requested joint index is
inside the state vector. -/
theorem resetJointEffects_isSome (r : Nat) (s : List ℚ) (c : Nat)
    (js : List Nat) :
    (resetJointEffects r s c js).isSome ↔ ∀ j ∈ js, j < s.length := by
  induction js with
  | nil => simp [resetJointEffects]
  | cons j rest ih =>
    simp only [resetJointEffects]
    cases hj : s[j]? with
    | none =>
      have hge : ¬ j < s.length := by
        intro hlt
        rw [List.getElem?_eq_getElem hlt] at hj
        exact Option.noConfusion hj
      simp [hge]
    | some v =>
      have hlt : j < s.length := by
        by_contra hge
        rw [List.getElem?_eq_none (by omega)] at hj
        exact Option.noConfusion hj
      cases hres : resetJointEffects r s c rest with
      | none =>
        rw [hres] at ih
        simp only [Option.isSome_none, Bool.false_eq_true, false_iff] at ih
        simp only [Option.isSome_none, Bool.false_eq_true, false_iff]
        intro hall
        exact ih fun x hx => hall x (List.mem_cons_of_mem j hx)
      | some es =>
        rw [hres] at ih
        simp only [Option.isSome_some, true_iff] at ih
        simp only [Option.isSome_some, true_iff, List.mem_cons]
        intro x hx
        rcases hx with hx | hx
        · exact hx ▸ hlt
        · exact ih x hx

/-- Quantifying over `List.range n` collapses to a length bound. -/
theorem forall_mem_range_lt (n L : Nat) :
    (∀ j ∈ List.range n, j < L) ↔ n ≤ L := by
  simp only [List.mem_range]
  constructor
  · intro h
    by_contra hn
    exact absurd (h L (by omega)) (lt_irrefl L)
  · intro h j hj
    omega

/- ----------------------------------------------------------------------
Claim theorems.
---------------------------------------------------------------------- -/

/-- C7: `load_environment` loads exactly five bodies — the ground plane at
the origin, the KUKA iiwa arm at the origin, and three cubes at
`[1,1,0.5]`, `[-1,-1,0.5]`, `[1,-1,0.5]` — all with `useFixedBase = true`,
and returns a mapping with exactly the five keys `robot`, `ground`,
`cube1`, `cube2`, `cube3` bound to the corresponding body ids. -/
theorem C7_load_environment_scene (client_id : Nat) :
    (load_environment client_id freshSession).1 =
      [("robot", 1), ("ground", 0), ("cube1", 2), ("cube2", 3), ("cube3", 4)] ∧
    (load_environment client_id freshSession).2.calls =
      [⟨"plane.urdf", [0, 0, 0], true, client_id⟩,
       ⟨"kuka_iiwa/model.urdf", [0, 0, 0], true, client_id⟩,
       ⟨"cube.urdf", [1, 1, mkRat 1 2], true, client_id⟩,
       ⟨"cube.urdf", [-1, -1, mkRat 1 2], true, client_id⟩,
       ⟨"cube.urdf", [1, -1, mkRat 1 2], true, client_id⟩] ∧
    ((load_environment client_id freshSession).2.calls).length = 5 ∧
    ((load_environment client_id freshSession).1).map Prod.fst =
      ["robot", "ground", "cube1", "cube2", "cube3"] ∧
    (∀ c ∈ (load_environment client_id freshSession).2.calls,
      c.useFixedBase = true) := by
  refine ⟨rfl, rfl, rfl, rfl, ?_⟩
  intro c hc
  simp only [load_environment, setAdditionalSearchPath, loadURDF, freshSession,
    List.mem_cons, List.mem_singleton, List.nil_append, List.cons_append,
    List.append_nil, List.mem_append] at hc
  rcases hc with hc | hc | hc | hc | hc | hc <;> simp_all

/-- C2: the GUI session and the headless session are populated by the same
`load_environment` procedure, so the two scenes are identical up to the
client id: the load calls agree on file name, position and fixed-base flag,
the name-to-id maps coincide, and each session's calls carry its own client
id. -/
theorem C2_sessions_mirror (a b : Nat) :
    sceneOf a = sceneOf b ∧
    (load_environment a freshSession).1 = (load_environment b freshSession).1 ∧
    (∀ c ∈ (load_environment a freshSession).2.calls,
      c.physicsClientId = a) := by
  refine ⟨rfl, rfl, ?_⟩
  intro c hc
  simp only [load_environment, setAdditionalSearchPath, loadURDF, freshSession,
    List.mem_cons, List.mem_singleton, List.nil_append, List.cons_append,
    List.append_nil, List.mem_append] at hc
  rcases hc with hc | hc | hc | hc | hc | hc <;> simp_all

/-- C5: the monitored pair list handed to the `CollisionDetector` is exactly
four pairs, each pairing the robot's `lbr_iiwa_link_7` with one static body
(`ground`, `cube1`, `cube2`, `cube3`), and nothing else. -/
theorem C5_monitored_pairs :
    col_detector.named_pairs =
      [(link7, ground), (link7, cube1), (link7, cube2), (link7, cube3)] ∧
    link7 = ⟨"robot", some "lbr_iiwa_link_7"⟩ ∧
    ground = ⟨"ground", none⟩ ∧
    cube1 = ⟨"cube1", none⟩ ∧
    cube2 = ⟨"cube2", none⟩ ∧
    cube3 = ⟨"cube3", none⟩ ∧
    col_detector.named_pairs.length = 4 ∧
    (∀ pr ∈ col_detector.named_pairs, pr.1 = link7) ∧
    col_detector.named_pairs.map Prod.snd = [ground, cube1, cube2, cube3] := by
  decide

/-- C10: `update_robot_state` resets joints `0 .. getNumJoints-1` reading
`state[joint_idx]`, and succeeds precisely when the state vector has at
least as many elements as the robot has joints; in `main` the 7-element `q`
matches the KUKA's 7 joints, so the call is safe. -/
theorem C10_update_robot_state_safe (getNumJoints : Nat → Nat) (r : Nat)
    (s : List ℚ) (c : Nat) (read : Nat → ℚ) :
    ((update_robot_state getNumJoints r s c).isSome ↔
      getNumJoints r ≤ s.length) ∧
    update_robot_state (fun _ => kukaNumJoints) robot_id (qOf read user_params)
      gui_id = some (applyEffects read) ∧
    (qOf read user_params).length = kukaNumJoints := by
  refine ⟨?_, update_robot_state_main read, rfl⟩
  rw [update_robot_state, resetJointEffects_isSome, forall_mem_range_lt]

/-- C6: the `while True` loop has no exit of its own: after any number of
completed iterations the next iteration exists, so the trace strictly grows
forever; the loop stops only if an external call faults. -/
theorem C6_loop_never_exits (read : Nat → Nat → ℚ)
    (distsFn : Nat → List ℚ → List ℚ) (n : Nat) :
    ∃ t u, run (fun _ => kukaNumJoints) read distsFn n = some t ∧
      run (fun _ => kukaNumJoints) read distsFn (n + 1) = some u ∧
      t.length < u.length := by
  induction n with
  | zero =>
    obtain ⟨b, hb, hlen⟩ := loop_body_total (read 0) (distsFn 0)
    exact ⟨[], b, rfl, by simp [run, hb], by simpa using hlen⟩
  | succ n ih =>
    obtain ⟨t, u, ht, hu, hlt⟩ := ih
    obtain ⟨b, hb, hlen⟩ := loop_body_total (read (n + 1)) (distsFn (n + 1))
    refine ⟨u, u ++ b, hu, ?_, by simp [hlen]⟩
    have hstep : run (fun _ => kukaNumJoints) read distsFn (n + 1 + 1) =
        match run (fun _ => kukaNumJoints) read distsFn (n + 1),
              loop_body (fun _ => kukaNumJoints) (read (n + 1))
                (distsFn (n + 1)) with
        | some t, some b => some (t ++ b)
        | _, _ => none := rfl
    rw [hstep, hu, hb]

/-- C1: when `in_collision` reports the configuration as colliding (minimum
distance below the margin), the iteration applies no `resetJointState` at
all and renders the red warning text; otherwise it applies `q` to the GUI
session via `update_robot_state` and renders no text. -/
theorem C1_collision_gates_pose (read : Nat → ℚ) (distsFn : List ℚ → List ℚ)
    (t : List Effect)
    (h : loop_body (fun _ => kukaNumJoints) read distsFn = some t) :
    (in_collision (distsFn (qOf read user_params))
        (read user_params.collision_margin) = true →
      (∀ b j v c, Effect.resetJointState b j v c ∉ t) ∧
      Effect.addUserDebugText "Avoiding collision" [0, 0, mkRat 3 2] [1, 0, 0]
        2 (mkRat 1 5) 0 ∈ t) ∧
    (in_collision (distsFn (qOf read user_params))
        (read user_params.collision_margin) = false →
      update_robot_state (fun _ => kukaNumJoints) robot_id
        (qOf read user_params) gui_id = some (applyEffects read) ∧
      (∀ e ∈ applyEffects read, e ∈ t) ∧
      (∀ s p cl sz lt c, Effect.addUserDebugText s p cl sz lt c ∉ t)) := by
  rw [loop_body_eq] at h
  injection h with h
  subst h
  constructor
  · intro hcol
    constructor
    · intro b j v c
      simp [hcol, preBranchEffects, jointReadEffects, postBranchEffects,
        warnEffect]
    · simp [hcol, preBranchEffects, jointReadEffects, postBranchEffects,
        warnEffect]
  · intro hcol
    refine ⟨update_robot_state_main read, ?_, ?_⟩
    · intro e he
      simp only [hcol, Bool.false_eq_true, if_false, List.mem_append]
      tauto
    · intro s p cl sz lt c
      simp [hcol, preBranchEffects, jointReadEffects, postBranchEffects,
        applyEffects]

/-- C3 does not hold as stated: the collision-margin slider is the keyword
argument of the `in_collision` call, so it is read after the
`compute_distances` query; in the concrete trace the distance query sits at
index 7 and a slider read at index 8, refuting "read the slider values,
then query". -/
theorem C3_margin_read_after_distance_query :
    loop_body (fun _ => kukaNumJoints) zeroRead farDists = some sampleTrace ∧
    sampleTrace[7]? =
      some (Effect.computeDistancesQuery col_id (qOf zeroRead user_params)) ∧
    sampleTrace[8]? =
      some (Effect.readUserDebugParameter user_params.collision_margin
        gui_id) ∧
    readsBeforeQueries sampleTrace = false := by
  refine ⟨rfl, rfl, rfl, rfl⟩

/-- C3 (amended): each iteration performs, in this order, the seven
joint-slider reads, the distance query, the margin-slider read, the
collision query, the branch (apply pose or render warning), the distance
printout, and exactly one `stepSimulation` as the final action, regardless
of which branch was taken. -/
theorem C3_iteration_order (read : Nat → ℚ) (distsFn : List ℚ → List ℚ)
    (t : List Effect)
    (h : loop_body (fun _ => kukaNumJoints) read distsFn = some t) :
    t = jointReadEffects
        ++ [Effect.computeDistancesQuery col_id (qOf read user_params)]
        ++ [Effect.readUserDebugParameter user_params.collision_margin gui_id]
        ++ [Effect.inCollisionQuery col_id (qOf read user_params)
              (read user_params.collision_margin)]
        ++ (if in_collision (distsFn (qOf read user_params))
              (read user_params.collision_margin)
            then [warnEffect] else applyEffects read)
        ++ [Effect.printDistances (distsFn (qOf read user_params)),
            Effect.stepSimulation gui_id] ∧
    t.countP (fun e => isStep e) = 1 ∧
    (∃ t0, t = t0 ++ [Effect.stepSimulation gui_id]) := by
  rw [loop_body_eq] at h
  injection h with h
  subst h
  refine ⟨?_, ?_, ?_⟩
  · simp [preBranchEffects, postBranchEffects]
  · cases hcol : in_collision (distsFn (qOf read user_params))
        (read user_params.collision_margin) <;>
      simp [hcol, preBranchEffects, jointReadEffects, postBranchEffects,
        applyEffects, warnEffect, isStep, List.countP_append,
        List.countP_cons]
  · refine ⟨preBranchEffects read
      ++ (if in_collision (distsFn (qOf read user_params))
            (read user_params.collision_margin)
          then [warnEffect] else applyEffects read)
      ++ [Effect.printDistances (distsFn (qOf read user_params))], ?_⟩
    simp [postBranchEffects]

/-- C4: every iteration reads exactly eight sliders — the seven joint-angle
sliders assembled into the 7-element vector `q`, plus the collision-margin
slider — and no other user-input read appears in the trace; the eight
parameter ids are pairwise distinct. -/
theorem C4_eight_slider_reads (read : Nat → ℚ) (distsFn : List ℚ → List ℚ)
    (t : List Effect)
    (h : loop_body (fun _ => kukaNumJoints) read distsFn = some t) :
    t.filter (fun e => isSliderRead e) =
      jointReadEffects ++
        [Effect.readUserDebugParameter user_params.collision_margin gui_id] ∧
    (t.filter (fun e => isSliderRead e)).length = 8 ∧
    (qOf read user_params).length = 7 ∧
    List.Nodup [user_params.lbr_iiwa_joint1, user_params.lbr_iiwa_joint2,
      user_params.lbr_iiwa_joint3, user_params.lbr_iiwa_joint4,
      user_params.lbr_iiwa_joint5, user_params.lbr_iiwa_joint6,
      user_params.lbr_iiwa_joint7, user_params.collision_margin] := by
  rw [loop_body_eq] at h
  injection h with h
  subst h
  refine ⟨?_, ?_, rfl, by decide⟩ <;>
    cases hcol : in_collision (distsFn (qOf read user_params))
        (read user_params.collision_margin) <;>
      simp [hcol, preBranchEffects, jointReadEffects, postBranchEffects,
        applyEffects, warnEffect, isSliderRead, List.filter_append]

/-- C9: the loop steps only the GUI session — every `stepSimulation` in an
iteration trace carries the GUI client id — and the only effects addressed
to the headless client are the two `CollisionDetector` queries; nothing in
the loop writes the headless session. -/
theorem C9_headless_only_queried (read : Nat → ℚ) (distsFn : List ℚ → List ℚ)
    (t : List Effect)
    (h : loop_body (fun _ => kukaNumJoints) read distsFn = some t) :
    (∀ c, Effect.stepSimulation c ∈ t → c = gui_id) ∧
    (∀ e ∈ t, effectClient e = some col_id → isDetectorQuery e = true) := by
  rw [loop_body_eq] at h
  injection h with h
  subst h
  constructor
  · intro c hc
    cases hcol : in_collision (distsFn (qOf read user_params))
        (read user_params.collision_margin) <;>
      simp [hcol, preBranchEffects, jointReadEffects, postBranchEffects,
        applyEffects, warnEffect] at hc <;>
      simp [hc]
  · intro e he hcl
    cases hcol : in_collision (distsFn (qOf read user_params))
        (read user_params.collision_margin) <;>
      cases e <;>
        simp_all [preBranchEffects, jointReadEffects, postBranchEffects,
          applyEffects, warnEffect, effectClient, isDetectorQuery,
          gui_id, col_id]

/-- C8: the script installs no handler anywhere, so a failure of any
external call propagates out unchanged: a failing `loadURDF` aborts
`load_environment` with that error, a failing slider read aborts the
iteration with that error, and a failing distance query (after successful
reads) aborts the iteration with that error. -/
theorem C8_errors_propagate (e : String) (client_id : Nat)
    (loadFn : String → List ℚ → Bool → Nat → Except String Nat)
    (read : Nat → Except String ℚ)
    (distsFn : List ℚ → Except String (List ℚ)) (r : Nat → ℚ) :
    (loadFn "plane.urdf" [0, 0, 0] true client_id = Except.error e →
      load_environmentE loadFn client_id = Except.error e) ∧
    (read user_params.lbr_iiwa_joint1 = Except.error e →
      loop_bodyE (fun _ => kukaNumJoints) read distsFn = Except.error e) ∧
    ((∀ p, read p = Except.ok (r p)) →
      distsFn (qOf r user_params) = Except.error e →
      loop_bodyE (fun _ => kukaNumJoints) read distsFn = Except.error e) := by
  refine ⟨?_, ?_, ?_⟩
  · intro h
    simp [load_environmentE, h, bind, Except.bind]
  · intro h
    simp [loop_bodyE, h, bind, Except.bind]
  · intro hr hd
    simp only [qOf] at hd
    simp [loop_bodyE, hr, hd, bind, Except.bind]

/- ----------------------------------------------------------------------
Witnesses: the hypothesised claim theorems evaluated at concrete oracles.
---------------------------------------------------------------------- -/

/-- The clear-configuration trace is the value `loop_body` computes. -/
theorem sampleTrace_eq :
    loop_body (fun _ => kukaNumJoints) zeroRead farDists = some sampleTrace := by
  decide

/-- The colliding-configuration trace is the value `loop_body` computes. -/
theorem collideTrace_eq :
    loop_body (fun _ => kukaNumJoints) oneRead closeDists =
      some collideTrace := by
  decide

/-- C1 at concrete oracles: the colliding trace applies no joint reset and
shows the warning; the clear trace contains every `resetJointState`. -/
theorem C1_witness :
    (∀ b j v c, Effect.resetJointState b j v c ∉ collideTrace) ∧
    Effect.addUserDebugText "Avoiding collision" [0, 0, mkRat 3 2] [1, 0, 0]
      2 (mkRat 1 5) 0 ∈ collideTrace ∧
    (∀ e ∈ applyEffects zeroRead, e ∈ sampleTrace) := by
  have hcoll :=
    (C1_collision_gates_pose oneRead closeDists collideTrace
      collideTrace_eq).1 (by decide)
  have hclear :=
    (C1_collision_gates_pose zeroRead farDists sampleTrace
      sampleTrace_eq).2 (by decide)
  exact ⟨hcoll.1, hcoll.2, hclear.2.1⟩

/-- C3 (amended) at concrete oracles: exactly one simulation step. -/
theorem C3_iteration_order_witness :
    sampleTrace.countP (fun e => isStep e) = 1 :=
  (C3_iteration_order zeroRead farDists sampleTrace sampleTrace_eq).2.1

/-- C4 at concrete oracles: exactly eight slider reads in the trace. -/
theorem C4_eight_slider_reads_witness :
    (sampleTrace.filter (fun e => isSliderRead e)).length = 8 :=
  (C4_eight_slider_reads zeroRead farDists sampleTrace sampleTrace_eq).2.1

/-- C9 at concrete oracles: the headless client is never stepped. -/
theorem C9_headless_only_queried_witness :
    Effect.stepSimulation col_id ∉ sampleTrace := fun hmem =>
  absurd ((C9_headless_only_queried zeroRead farDists sampleTrace
    sampleTrace_eq).1 col_id hmem) (by decide)

/-- C8 at concrete failing oracles: each failure surfaces unchanged. -/
theorem C8_errors_propagate_witness :
    load_environmentE (fun _ _ _ _ => Except.error "missing asset") gui_id
      = Except.error "missing asset" ∧
    loop_bodyE (fun _ => kukaNumJoints) (fun _ => Except.error "disconnect")
      (fun _ => Except.ok [1, 1, 1, 1]) = Except.error "disconnect" ∧
    loop_bodyE (fun _ => kukaNumJoints) (fun _ => Except.ok 0)
      (fun _ => Except.error "bad query") = Except.error "bad query" := by
  refine ⟨?_, ?_, ?_⟩
  · exact (C8_errors_propagate "missing asset" gui_id
      (fun _ _ _ _ => Except.error "missing asset")
      (fun _ => Except.ok 0) (fun _ => Except.ok []) zeroRead).1 rfl
  · exact (C8_errors_propagate "disconnect" gui_id
      (fun _ _ _ _ => Except.ok 0)
      (fun _ => Except.error "disconnect")
      (fun _ => Except.ok [1, 1, 1, 1]) zeroRead).2.1 rfl
  · exact (C8_errors_propagate "bad query" gui_id
      (fun _ _ _ _ => Except.ok 0)
      (fun _ => Except.ok 0)
      (fun _ => Except.error "bad query") zeroRead).2.2 (fun p => rfl) rfl

end CollisionExample
